import Mathlib

/-!
Verification of the gohaven wallpaper tool (src/main.go) against its
specification.  The Go program is shallowly embedded: pure string
manipulation is translated directly, and every effectful step (HTTP
requests, process execution, filesystem access, the log flush) is
modelled by passing the outcome of the effect in explicitly as data.
-/

namespace Gohaven

/-! ### String primitives (models of the Go strings package) -/

/-- Model of Go `strings.ToLower` (ASCII case folding, which is all the
program relies on: the needles are `gnome`, `i3`, `dwm`, `y`). -/
def lowerStr (s : String) : String := ⟨s.data.map Char.toLower⟩

/-- Characters trimmed by Go `strings.TrimSpace` on the inputs this
program sees (ASCII whitespace). -/
def isSpaceChar (c : Char) : Bool := c == ' ' || c == '\t' || c == '\n' || c == '\r'

/-- Model of Go `strings.TrimSpace`: drop leading and trailing whitespace. -/
def trimStr (s : String) : String :=
  ⟨((s.data.dropWhile isSpaceChar).reverse.dropWhile isSpaceChar).reverse⟩

/-- Does the second list start with the first one?  Helper for the
substring test below. -/
def beginsWith : List Char → List Char → Bool
  | [], _ => true
  | _ :: _, [] => false
  | a :: as, b :: bs => a == b && beginsWith as bs

/-- Does some suffix of the second list start with the first one? -/
def listContainsSub (pat : List Char) : List Char → Bool
  | [] => beginsWith pat []
  | c :: rest => beginsWith pat (c :: rest) || listContainsSub pat rest

/-- Model of Go `strings.Contains s pat`: substring test. -/
def strContains (s pat : String) : Bool := listContainsSub pat.data s.data

/-! ### HTML model (for the goquery selections used by the program) -/

/-- An HTML element: tag name, attribute list (in document order) and
child elements.  Text nodes are irrelevant to every selector the
program uses and are omitted. -/
inductive Node where
  | elem (tag : String) (attrs : List (String × String)) (children : List Node)

/-- Tag name of an element. -/
def Node.tag : Node → String
  | .elem t _ _ => t

/-- Children of an element. -/
def Node.children : Node → List Node
  | .elem _ _ c => c

/-- First value of the named attribute, if the attribute is present:
the model of goquery `getAttributeValue`, which scans the attribute
list and returns the first match together with an existence flag.  An
attribute that is present with an empty value yields `some ""`. -/
def Node.attr (n : Node) (name : String) : Option String :=
  match n with
  | .elem _ attrs _ => (attrs.find? (fun p => p.1 == name)).map (fun p => p.2)

/-- Split a character list into whitespace-separated words (model of
how cascadia tokenises the `class` attribute). -/
def wordsAux : List Char → List Char → List (List Char)
  | [], cur => if cur.isEmpty then [] else [cur.reverse]
  | c :: rest, cur =>
    if isSpaceChar c then
      if cur.isEmpty then wordsAux rest [] else cur.reverse :: wordsAux rest []
    else wordsAux rest (c :: cur)

/-- The classes of an element: its `class` attribute split on
whitespace. -/
def Node.classList (n : Node) : List String :=
  (wordsAux ((n.attr "class").getD "").data []).map (fun l => ⟨l⟩)

/-- Does the element carry the given class? -/
def hasClass (c : String) (n : Node) : Bool := (n.classList).contains c

/-- Does the element have the given tag? -/
def isTag (t : String) (n : Node) : Bool := n.tag == t

mutual
/-- Pre-order traversal collecting the nodes that satisfy `p` and lie
(strictly, unless `under` is already true) below a node satisfying
`anc`; models the document-order node collection of a goquery
`Find` with a descendant selector. -/
def findAux (p anc : Node → Bool) (under : Bool) : Node → List Node
  | .elem t a c =>
    (if under && p (.elem t a c) then [Node.elem t a c] else []) ++
      findAuxList p anc (under || anc (.elem t a c)) c

/-- Traversal of `findAux` over a forest, left to right. -/
def findAuxList (p anc : Node → Bool) (under : Bool) : List Node → List Node
  | [] => []
  | n :: ns => findAux p anc under n ++ findAuxList p anc under ns
end

/-- A parsed HTML document: the forest of top-level elements. -/
def Doc := List Node

/-- goquery `doc.Find` with a simple (single compound) selector:
every node in document order satisfying `p`. -/
def findAll (doc : Doc) (p : Node → Bool) : List Node :=
  findAuxList p (fun _ => true) true doc

/-- goquery `doc.Find` with a descendant selector `anc p`: every node
satisfying `p` with a proper ancestor satisfying `anc`. -/
def findDesc (doc : Doc) (anc p : Node → Bool) : List Node :=
  findAuxList p anc false doc

/-- The selection `.scrollbox img`. -/
def selScrollboxImg (doc : Doc) : List Node :=
  findDesc doc (hasClass "scrollbox") (isTag "img")

/-- The selection `#wallpaper`. -/
def selWallpaperById (doc : Doc) : List Node :=
  findAll doc (fun n => n.attr "id" == some "wallpaper")

/-- The selection `img#showcase-wallpaper`. -/
def selShowcase (doc : Doc) : List Node :=
  findAll doc (fun n => isTag "img" n && n.attr "id" == some "showcase-wallpaper")

/-- The selection `img`. -/
def selImgs (doc : Doc) : List Node := findAll doc (isTag "img")

/-- goquery `Selection.Attr`: the attribute of the first node of the
selection; an empty selection has no attributes. -/
def selAttr (sel : List Node) (name : String) : Option String :=
  match sel with
  | [] => none
  | n :: _ => n.attr name

/-! ### Detail-page extraction (selector chain of downloadWallpaper) -/

/-- The selector chain of `downloadWallpaper` (src/main.go:224-236):
try `data-cfsrc` on `.scrollbox img`; if that attribute does not exist
there, try `src` on `#wallpaper`; if that does not exist, try `src` on
`img#showcase-wallpaper`.  The Go code keeps the `exists` flag of
`Attr`, so a present-but-empty attribute ends the chain. -/
def extractImageSource (doc : Doc) : Option String :=
  match selAttr (selScrollboxImg doc) "data-cfsrc" with
  | some src => some src
  | none =>
    match selAttr (selWallpaperById doc) "src" with
    | some src => some src
    | none => selAttr (selShowcase doc) "src"

/-- One line of the diagnostic image dump (src/main.go:242-243):
absent attributes print as the empty string, matching the discarded
`exists` flag in the Go code. -/
def imgDumpLine (i : Nat) (n : Node) : String :=
  "img " ++ Nat.repr i ++ ": src=" ++ ((n.attr "src").getD "") ++
    ", data-cfsrc=" ++ ((n.attr "data-cfsrc").getD "")

/-- The extraction phase of `downloadWallpaper` (src/main.go:224-248):
the log-buffer lines it appends, paired with the extracted source
(`none` models the not-found error return).  When the chain fails, the
header line and one dump line per `img` element are appended before
the error is returned. -/
def extractPhase (doc : Doc) : List String × Option String :=
  match extractImageSource doc with
  | some src => ([], some src)
  | none =>
    ("No image source found. Dumping img tags:" ::
        ((selImgs doc).enum.map (fun p => imgDumpLine p.1 p.2)),
      none)

/-- The wallpaper identifier (src/main.go:250-253): `data-wallpaper-id`
of `.scrollbox img`, defaulting to the literal string `unknown`. -/
def extractWallpaperID (doc : Doc) : String :=
  (selAttr (selScrollboxImg doc) "data-wallpaper-id").getD "unknown"

/-- The downloaded file name (src/main.go:255):
`fmt.Sprintf("%d-%s.png", time.Now().UnixMilli(), wallpaperID)`. -/
def mkWallpaperFileName (unixMillis : Nat) (wallpaperID : String) : String :=
  Nat.repr unixMillis ++ "-" ++ wallpaperID ++ ".png"

/-! ### Environment detection (detectWindowManager) -/

/-- The inputs `detectWindowManager` reads: the two environment
variables, and the outputs of the two `pgrep -l` queries (`none`
models a query that returned an error). -/
structure DetectEnv where
  xdgCurrentDesktop : String
  desktopSession : String
  pgrepDwm : Option String
  pgrepI3 : Option String

/-- Does either environment variable contain the (lower-case) needle,
case-insensitively?  This is the test each branch of
src/main.go:50-58 performs. -/
def envMatches (e : DetectEnv) (pat : String) : Bool :=
  strContains (lowerStr e.xdgCurrentDesktop) pat ||
    strContains (lowerStr e.desktopSession) pat

/-- The `pgrep` fallback test (src/main.go:61-72): the query must have
succeeded and its output must contain the process name. -/
def pgrepFinds (out : Option String) (pat : String) : Bool :=
  match out with
  | some o => strContains o pat
  | none => false

/-- `detectWindowManager` (src/main.go:46-74): environment variables
first (gnome, then i3, then dwm), then the process list (dwm, then
i3), else unknown. -/
def detectWindowManager (e : DetectEnv) : String :=
  if envMatches e "gnome" then "gnome"
  else if envMatches e "i3" then "i3"
  else if envMatches e "dwm" then "dwm"
  else if pgrepFinds e.pgrepDwm "dwm" then "dwm"
  else if pgrepFinds e.pgrepI3 "i3" then "i3"
  else "unknown"

/-! ### setWallpaper (src/main.go:76-197) -/

/-- Outcome of one external command run (`cmd.Run` with captured
stdout/stderr): `runErr = none` means the process exited
successfully. -/
structure CmdResult where
  runErr : Option String
  stdout : String
  stderr : String

/-- Every effect outcome `setWallpaper` can observe, passed in as
data: path resolution, the detector inputs, the two possible external
commands, the i3-config persistence steps, and the final `writeLog`
flush result. -/
structure SetWorld where
  absErr : Option String
  absPath : String
  env : DetectEnv
  gsettings : CmdResult
  fehLookPathErr : Option String
  feh : CmdResult
  i3ConfigExists : Bool
  i3ConfigRead : Except String String
  i3OpenErr : Option String
  i3WriteErr : Option String
  flush : Except String Unit

/-- What a `setWallpaper` call produced: the log-buffer lines it
appended, the line appended to the i3 config (if any), and its return
value. -/
structure SetResult where
  log : List String
  i3Append : Option String
  ret : Except String Unit

/-- The line appended to the i3 config for persistence
(src/main.go:176). -/
def fehLine (absPath : String) : String :=
  "\nexec --no-startup-id feh --bg-scale " ++ absPath ++ "\n"

/-- The best-effort i3 persistence step (src/main.go:160-183): if the
config file exists, read it; if readable and it does not already
contain the feh invocation, append the exec line.  Every failure
produces only a warning line; nothing is returned to the caller. -/
def i3Persist (w : SetWorld) : List String × Option String :=
  if w.i3ConfigExists then
    match w.i3ConfigRead with
    | .error e => (["Warning: could not read i3 config: " ++ e], none)
    | .ok content =>
      if strContains content ("feh --bg-scale " ++ w.absPath) then ([], none)
      else
        match w.i3OpenErr with
        | some e => (["Warning: could not append to i3 config: " ++ e], none)
        | none =>
          match w.i3WriteErr with
          | some e => (["Warning: could not write to i3 config: " ++ e], none)
          | none =>
            (["Added feh command to i3 config for persistence"], some (fehLine w.absPath))
  else ([], none)

/-- `setWallpaper` (src/main.go:76-197): resolve the absolute path,
detect the window manager, dispatch on it, and on every success path
return the result of flushing the log buffer (`writeLog`).  The
intermediate `writeLog` calls on error paths only affect the log file,
never the return value, and are not modelled beyond the buffer
lines. -/
def setWallpaper (w : SetWorld) : SetResult :=
  match w.absErr with
  | some e =>
    ⟨["Error getting absolute path: " ++ e], none,
      .error ("failed to get absolute path: " ++ e)⟩
  | none =>
    let wm := detectWindowManager w.env
    let log0 := ["Detected window manager: " ++ wm]
    if wm == "gnome" then
      let command :=
        "gsettings set org.gnome.desktop.background picture-uri file://" ++ w.absPath
      let log1 := log0 ++ [command]
      match w.gsettings.runErr with
      | some e =>
        ⟨log1 ++ ["Error: " ++ e], none, .error ("failed to set wallpaper: " ++ e)⟩
      | none =>
        if w.gsettings.stderr == "" then
          ⟨log1 ++ ["stdout: " ++ w.gsettings.stdout] ++ ["Wallpaper Set"], none, w.flush⟩
        else
          ⟨log1 ++ ["stderr: " ++ w.gsettings.stderr], none,
            .error ("gsettings stderr: " ++ w.gsettings.stderr)⟩
    else if wm == "dwm" || wm == "i3" then
      match w.fehLookPathErr with
      | some e =>
        ⟨log0 ++ ["Error: feh not found. Please install feh to set wallpapers in DWM or i3."],
          none, .error ("feh not found: " ++ e)⟩
      | none =>
        let command := "feh --bg-scale " ++ w.absPath
        let log1 := log0 ++ [command]
        match w.feh.runErr with
        | some e =>
          ⟨log1 ++ ["Error: " ++ e], none,
            .error ("failed to set wallpaper with feh: " ++ e)⟩
        | none =>
          if w.feh.stderr == "" then
            let log2 := log1 ++ ["stdout: " ++ w.feh.stdout]
            if wm == "i3" then
              let persist := i3Persist w
              ⟨log2 ++ persist.1 ++ ["Wallpaper Set"], persist.2, w.flush⟩
            else
              ⟨log2 ++ ["Wallpaper Set"], none, w.flush⟩
          else
            ⟨log1 ++ ["stderr: " ++ w.feh.stderr], none,
              .error ("feh stderr: " ++ w.feh.stderr)⟩
    else
      ⟨log0 ++ ["Error: unknown window manager. Supported: gnome, dwm, i3."], none,
        .error ("unknown window manager: " ++ wm)⟩

/-! ### HTTP requests (downloadWallpaper, fetchRandomWallpaperURL) -/

/-- An outgoing HTTP request: method, URL and the headers explicitly
set on it. -/
structure HttpRequest where
  method : String
  url : String
  headers : List (String × String)

/-- The fixed browser-mimicking User-Agent (src/main.go:205, 264, 299). -/
def userAgent : String :=
  "Mozilla/5.0 (X11; Linux x86_64; rv:109.0) Gecko/20100101 Firefox/115.0"

/-- The fixed Accept header (src/main.go:206). -/
def acceptHeader : String :=
  "text/html,application/xhtml+xml,application/xml;q=0.9,image/webp,*/*;q=0.8"

/-- The detail-page request of `downloadWallpaper` (src/main.go:201-206):
GET with User-Agent and Accept. -/
def detailPageRequest (url : String) : HttpRequest :=
  ⟨"GET", url, [("User-Agent", userAgent), ("Accept", acceptHeader)]⟩

/-- The random listing-page request of `fetchRandomWallpaperURL`
(src/main.go:296-299): GET with only the User-Agent header. -/
def randomPageRequest : HttpRequest :=
  ⟨"GET", "https://wallhaven.cc/random", [("User-Agent", userAgent)]⟩

/-- The image-byte request of `downloadWallpaper` (src/main.go:259-264):
GET with only the User-Agent header. -/
def imageRequest (src : String) : HttpRequest :=
  ⟨"GET", src, [("User-Agent", userAgent)]⟩

/-! ### Download file write and the program's file operations -/

/-- The file write of `downloadWallpaper` (src/main.go:278-291):
`os.Create`, then `io.Copy`.  The Boolean records whether the
destination file was created; the `Except` is the function's return at
this point.  A failing copy leaves the created file behind. -/
def copyPhase (createErr copyErr : Option String) : Bool × Except String Unit :=
  match createErr with
  | some e => (false, .error ("failed to create image file: " ++ e))
  | none =>
    match copyErr with
    | some e => (true, .error ("failed to save image: " ++ e))
    | none => (true, .ok ())

/-- The kinds of filesystem operations appearing anywhere in
src/main.go. -/
inductive FileOp where
  | mkdirAll
  | statFile
  | readFile
  | createFile
  | openAppend
  | writeFile
  | removeFile
  | truncateFile
deriving DecidableEq

/-- Every filesystem operation src/main.go performs, by site:
`writeLog` opens the log for append and writes (src/main.go:30-37);
`setWallpaper` stats, reads, opens for append and writes the i3 config
(src/main.go:161-178); `downloadWallpaper` creates the image file and
writes it (src/main.go:278-289); `main` creates the two directories
(src/main.go:348-353).  No remove or truncate operation occurs. -/
def programFileOps : List FileOp :=
  [.openAppend, .writeFile,
   .statFile, .readFile, .openAppend, .writeFile,
   .createFile, .writeFile,
   .mkdirAll, .mkdirAll]

/-! ### Session loop (main, src/main.go:356-398) -/

/-- What one loop iteration decides: go around again, or leave the
loop (normal program exit). -/
inductive LoopOutcome where
  | continueFetching
  | exitLoop
deriving DecidableEq

/-- One iteration of the main loop (src/main.go:356-398), with the
effect outcomes passed in: the random-URL fetch result, the
download-and-set result, and the text the user typed at the keep
prompt.  Errors lead back to fetching (after the two-second sleep);
after full success the loop exits exactly on a trimmed, lowercased
`y`. -/
def sessionStep (fetchResult : Except String String)
    (downloadResult : Except String Unit) (userInput : String) : LoopOutcome :=
  match fetchResult with
  | .error _ => .continueFetching
  | .ok _ =>
    match downloadResult with
    | .error _ => .continueFetching
    | .ok _ =>
      if lowerStr (trimStr userInput) == "y" then .exitLoop else .continueFetching

/-! ### Decimal rendering facts (for filename uniqueness)

The file names embed `time.Now().UnixMilli()` rendered in decimal
(`Nat.repr` in the embedding).  The lemmas below establish that the
rendering is injective and produces only digit characters, so the
timestamp can be recovered from the file name. -/

theorem toDigitsCore_acc (b : Nat) :
    ∀ (f n : Nat) (acc : List Char),
      Nat.toDigitsCore b f n acc = Nat.toDigitsCore b f n [] ++ acc := by
  intro f
  induction f with
  | zero => intro n acc; simp [Nat.toDigitsCore]
  | succ f ih =>
    intro n acc
    simp only [Nat.toDigitsCore]
    by_cases h : n / b = 0
    · simp [h]
    · simp only [if_neg h]
      rw [ih (n / b) (Nat.digitChar (n % b) :: acc),
        ih (n / b) [Nat.digitChar (n % b)]]
      simp

theorem toDigitsCore_fuel_succ :
    ∀ (f n : Nat) (acc : List Char), 0 < f → n < 10 ^ f →
      Nat.toDigitsCore 10 f n acc = Nat.toDigitsCore 10 (f + 1) n acc := by
  intro f
  induction f with
  | zero => intro n acc h; exact absurd h (lt_irrefl 0)
  | succ f ih =>
    intro n acc _ hn
    simp only [Nat.toDigitsCore]
    by_cases h : n / 10 = 0
    · simp [h]
    · simp only [if_neg h]
      have hf : 0 < f := by
        rcases Nat.eq_zero_or_pos f with hf0 | hf0
        · subst hf0
          exact absurd (Nat.div_eq_of_lt (by simpa using hn)) h
        · exact hf0
      have hdiv : n / 10 < 10 ^ f := by
        have hn' : n < 10 ^ f * 10 := by
          calc n < 10 ^ (f + 1) := hn
          _ = 10 ^ f * 10 := by rw [pow_succ]
        exact (Nat.div_lt_iff_lt_mul (by norm_num)).mpr hn'
      exact ih (n / 10) (Nat.digitChar (n % 10) :: acc) hf hdiv

theorem toDigitsCore_fuel_le :
    ∀ (g f n : Nat) (acc : List Char), 0 < f → n < 10 ^ f → f ≤ g →
      Nat.toDigitsCore 10 f n acc = Nat.toDigitsCore 10 g n acc := by
  intro g
  induction g with
  | zero => intro f n acc hf _ hg; omega
  | succ g ih =>
    intro f n acc hf hn hg
    rcases Nat.eq_or_lt_of_le hg with he | hl
    · rw [he]
    · have hfg : f ≤ g := Nat.lt_succ_iff.mp hl
      rw [ih f n acc hf hn hfg]
      have hg0 : 0 < g := lt_of_lt_of_le hf hfg
      have hng : n < 10 ^ g :=
        lt_of_lt_of_le hn (Nat.pow_le_pow_right (by norm_num) hfg)
      exact toDigitsCore_fuel_succ g n acc hg0 hng

theorem toDigits_small (n : Nat) (h : n < 10) :
    Nat.toDigits 10 n = [Nat.digitChar n] := by
  simp only [Nat.toDigits, Nat.toDigitsCore]
  simp [Nat.div_eq_of_lt h, Nat.mod_eq_of_lt h]

theorem toDigits_step (n : Nat) (h : 10 ≤ n) :
    Nat.toDigits 10 n = Nat.toDigits 10 (n / 10) ++ [Nat.digitChar (n % 10)] := by
  have hd : ¬ n / 10 = 0 := by
    intro h0
    have := (Nat.div_eq_zero_iff (by norm_num : 0 < 10)).mp h0
    omega
  have h1 : Nat.toDigits 10 n =
      Nat.toDigitsCore 10 n (n / 10) [Nat.digitChar (n % 10)] := by
    simp only [Nat.toDigits, Nat.toDigitsCore]
    rw [if_neg hd]
  rw [h1, toDigitsCore_acc 10 n (n / 10) [Nat.digitChar (n % 10)]]
  congr 1
  rw [Nat.toDigits]
  symm
  apply toDigitsCore_fuel_le
  · exact Nat.succ_pos _
  · exact lt_of_lt_of_le (Nat.lt_pow_self (by norm_num) _)
      (Nat.pow_le_pow_right (by norm_num) (Nat.le_succ _))
  · have : n / 10 < n := Nat.div_lt_self (by omega) (by norm_num)
    omega

theorem toDigits_ne_nil (n : Nat) : Nat.toDigits 10 n ≠ [] := by
  by_cases h : n < 10
  · rw [toDigits_small n h]; simp
  · rw [toDigits_step n (le_of_not_lt h)]; simp

theorem digitChar_injOn :
    ∀ m, m < 10 → ∀ n, n < 10 → Nat.digitChar m = Nat.digitChar n → m = n := by
  decide

theorem digitChar_isDigit : ∀ n, n < 10 → (Nat.digitChar n).isDigit = true := by
  decide

theorem toDigits_isDigit (n : Nat) :
    ∀ c ∈ Nat.toDigits 10 n, c.isDigit = true := by
  induction n using Nat.strong_induction_on with
  | _ n ih =>
    by_cases h : n < 10
    · rw [toDigits_small n h]
      intro c hc
      simp only [List.mem_singleton] at hc
      subst hc
      exact digitChar_isDigit n h
    · rw [toDigits_step n (le_of_not_lt h)]
      intro c hc
      rcases List.mem_append.mp hc with hc | hc
      · exact ih (n / 10) (Nat.div_lt_self (by omega) (by norm_num)) c hc
      · simp only [List.mem_singleton] at hc
        subst hc
        exact digitChar_isDigit (n % 10) (Nat.mod_lt _ (by norm_num))

theorem toDigits_inj (m : Nat) :
    ∀ n, Nat.toDigits 10 m = Nat.toDigits 10 n → m = n := by
  induction m using Nat.strong_induction_on with
  | _ m ih =>
    intro n he
    by_cases hm : m < 10 <;> by_cases hn : n < 10
    · rw [toDigits_small m hm, toDigits_small n hn] at he
      simp only [List.cons.injEq, and_true] at he
      exact digitChar_injOn m hm n hn he
    · rw [toDigits_small m hm, toDigits_step n (le_of_not_lt hn)] at he
      have hlen := congrArg List.length he
      simp only [List.length_singleton, List.length_append] at hlen
      have : Nat.toDigits 10 (n / 10) = [] := by
        apply List.length_eq_zero.mp
        omega
      exact absurd this (toDigits_ne_nil _)
    · rw [toDigits_step m (le_of_not_lt hm), toDigits_small n hn] at he
      have hlen := congrArg List.length he
      simp only [List.length_singleton, List.length_append] at hlen
      have : Nat.toDigits 10 (m / 10) = [] := by
        apply List.length_eq_zero.mp
        omega
      exact absurd this (toDigits_ne_nil _)
    · rw [toDigits_step m (le_of_not_lt hm), toDigits_step n (le_of_not_lt hn)] at he
      have hrev := congrArg List.reverse he
      simp only [List.reverse_append, List.reverse_singleton, List.singleton_append,
        List.cons.injEq, List.reverse_inj] at hrev
      obtain ⟨hdig, hrest⟩ := hrev
      have hq : m / 10 = n / 10 :=
        ih (m / 10) (Nat.div_lt_self (by omega) (by norm_num)) (n / 10) hrest
      have hr : m % 10 = n % 10 :=
        digitChar_injOn (m % 10) (Nat.mod_lt _ (by norm_num))
          (n % 10) (Nat.mod_lt _ (by norm_num)) hdig
      omega

theorem toDigits_no_dash (n : Nat) : '-' ∉ Nat.toDigits 10 n := by
  intro hmem
  exact absurd (toDigits_isDigit n '-' hmem) (by decide)

theorem string_data_append (a b : String) : (a ++ b).data = a.data ++ b.data := by
  cases a; cases b; rfl

theorem split_at_dash :
    ∀ (xs ys u v : List Char), '-' ∉ xs → '-' ∉ ys →
      xs ++ '-' :: u = ys ++ '-' :: v → xs = ys := by
  intro xs
  induction xs with
  | nil =>
    intro ys u v _ hy he
    cases ys with
    | nil => rfl
    | cons b ys' =>
      simp only [List.nil_append, List.cons_append, List.cons.injEq] at he
      exact absurd (List.mem_cons_self b ys') (he.1 ▸ hy)
  | cons a xs' ihx =>
    intro ys u v hx hy he
    cases ys with
    | nil =>
      simp only [List.cons_append, List.nil_append, List.cons.injEq] at he
      exact absurd (he.1 ▸ List.mem_cons_self a xs') hx
    | cons b ys' =>
      simp only [List.cons_append, List.cons.injEq] at he
      obtain ⟨hab, hrest⟩ := he
      have hx' : '-' ∉ xs' := fun hm => hx (List.mem_cons_of_mem a hm)
      have hy' : '-' ∉ ys' := fun hm => hy (List.mem_cons_of_mem b hm)
      rw [hab, ihx ys' u v hx' hy' hrest]

/-! ### Concrete example inputs used by the witnesses -/

/-- A detail page whose scroll-container image carries `data-cfsrc`
with an empty value while `#wallpaper` carries a real source. -/
def emptyAttrDoc : Doc :=
  [Node.elem "div" [("class", "scrollbox")]
      [Node.elem "img" [("data-cfsrc", "")] []],
   Node.elem "img" [("id", "wallpaper"), ("src", "https://example.com/full.png")] []]

/-- A detail page with no scroll container, where only `#wallpaper`
matches. -/
def fallbackDoc : Doc :=
  [Node.elem "img" [("id", "wallpaper"), ("src", "https://example.com/full.png")] []]

/-- A detail page on which all three selector strategies fail and a
single stray image remains to be dumped. -/
def dumpDoc : Doc :=
  [Node.elem "img" [("src", "https://example.com/a.png")] []]

/-- Environment whose variables mention all three window managers. -/
def mixedEnv : DetectEnv :=
  ⟨"GNOME-i3-dwm", "i3 dwm", some "123 dwm", some "456 i3"⟩

/-- Plain Gnome environment (scenario A of the spec). -/
def gnomeEnvPlain : DetectEnv := ⟨"ubuntu:GNOME", "", none, none⟩

/-- Plain i3 environment. -/
def i3EnvPlain : DetectEnv := ⟨"", "i3", none, none⟩

/-- A run on Gnome where gsettings exits zero but writes to stderr. -/
def gnomeStderrWorld : SetWorld :=
  { absErr := none
    absPath := "/home/user/Pictures/17-abc.png"
    env := gnomeEnvPlain
    gsettings := ⟨none, "", "warning: schema"⟩
    fehLookPathErr := none
    feh := ⟨none, "", ""⟩
    i3ConfigExists := false
    i3ConfigRead := .ok ""
    i3OpenErr := none
    i3WriteErr := none
    flush := .ok () }

/-- A fully successful run on i3 whose config file exists and lacks
the feh invocation. -/
def i3World : SetWorld :=
  { absErr := none
    absPath := "/home/user/Pictures/17-abc.png"
    env := i3EnvPlain
    gsettings := ⟨none, "", ""⟩
    fehLookPathErr := none
    feh := ⟨none, "", ""⟩
    i3ConfigExists := true
    i3ConfigRead := .ok "set $mod Mod4"
    i3OpenErr := none
    i3WriteErr := none
    flush := .ok () }

/-- A run on Gnome where the wallpaper is applied but flushing the log
buffer to the log file fails. -/
def gnomeFlushFailWorld : SetWorld :=
  { absErr := none
    absPath := "/home/user/Pictures/17-abc.png"
    env := gnomeEnvPlain
    gsettings := ⟨none, "", ""⟩
    fehLookPathErr := none
    feh := ⟨none, "", ""⟩
    i3ConfigExists := false
    i3ConfigRead := .ok ""
    i3OpenErr := none
    i3WriteErr := none
    flush := .error "failed to open log file: permission denied" }

/-! ### Claim theorems -/

/-- C1, counterexample: a present-but-empty `data-cfsrc` on
`.scrollbox img` terminates the selector chain with the empty value,
so the later strategy with a real source is never consulted — the
chain stops at the first present attribute, not the first non-empty
one. -/
theorem extractImageSource_empty_attr_cex :
    selAttr (selScrollboxImg emptyAttrDoc) "data-cfsrc" = some "" ∧
    selAttr (selWallpaperById emptyAttrDoc) "src" = some "https://example.com/full.png" ∧
    extractImageSource emptyAttrDoc = some "" ∧
    extractImageSource emptyAttrDoc ≠ some "https://example.com/full.png" := by
  refine ⟨rfl, rfl, rfl, by decide⟩

/-- C1 (amended): the selector chain tries the three strategies in
order and stops at the first strategy whose attribute is present —
even when the value is empty; only an absent attribute moves the
chain to the next strategy. -/
theorem extractImageSource_chain (doc : Doc) :
    (∀ v, selAttr (selScrollboxImg doc) "data-cfsrc" = some v →
      extractImageSource doc = some v) ∧
    (selAttr (selScrollboxImg doc) "data-cfsrc" = none →
      ∀ v, selAttr (selWallpaperById doc) "src" = some v →
        extractImageSource doc = some v) ∧
    (selAttr (selScrollboxImg doc) "data-cfsrc" = none →
      selAttr (selWallpaperById doc) "src" = none →
      extractImageSource doc = selAttr (selShowcase doc) "src") ∧
    (selAttr (selScrollboxImg doc) "data-cfsrc" = some "" →
      extractImageSource doc = some "") := by
  refine ⟨?_, ?_, ?_, ?_⟩
  · intro v h; simp [extractImageSource, h]
  · intro h1 v h2; simp [extractImageSource, h1, h2]
  · intro h1 h2; simp [extractImageSource, h1, h2]
  · intro h; simp [extractImageSource, h]

/-- C1, witness: on a page with no scroll-container image, the chain
falls through to the `#wallpaper` strategy. -/
theorem extractImageSource_chain_witness :
    extractImageSource fallbackDoc = some "https://example.com/full.png" :=
  (extractImageSource_chain fallbackDoc).2.1 rfl "https://example.com/full.png" rfl

/-- C2: the detector decides by first match in the fixed order gnome,
i3, dwm over the environment variables, then the dwm process query,
then the i3 process query, else unknown; in particular a gnome match
wins no matter what else matches. -/
theorem detectWindowManager_order (e : DetectEnv) :
    (envMatches e "gnome" = true → detectWindowManager e = "gnome") ∧
    (envMatches e "gnome" = false → envMatches e "i3" = true →
      detectWindowManager e = "i3") ∧
    (envMatches e "gnome" = false → envMatches e "i3" = false →
      envMatches e "dwm" = true → detectWindowManager e = "dwm") ∧
    (envMatches e "gnome" = false → envMatches e "i3" = false →
      envMatches e "dwm" = false → pgrepFinds e.pgrepDwm "dwm" = true →
      detectWindowManager e = "dwm") ∧
    (envMatches e "gnome" = false → envMatches e "i3" = false →
      envMatches e "dwm" = false → pgrepFinds e.pgrepDwm "dwm" = false →
      pgrepFinds e.pgrepI3 "i3" = true → detectWindowManager e = "i3") ∧
    (envMatches e "gnome" = false → envMatches e "i3" = false →
      envMatches e "dwm" = false → pgrepFinds e.pgrepDwm "dwm" = false →
      pgrepFinds e.pgrepI3 "i3" = false → detectWindowManager e = "unknown") := by
  refine ⟨?_, ?_, ?_, ?_, ?_, ?_⟩ <;> intros <;> simp [detectWindowManager, *]

/-- C2, witness: an environment mentioning gnome, i3 and dwm at once
(and whose process queries would find dwm and i3) is still classified
as gnome. -/
theorem detectWindowManager_order_witness :
    detectWindowManager mixedEnv = "gnome" :=
  (detectWindowManager_order mixedEnv).1 rfl

/-- C3: when all three selector strategies fail, the extraction phase
returns the not-found error and its log lines start with the dump
header and contain one line per img element with both attribute
values. -/
theorem extractPhase_dump_on_failure (doc : Doc)
    (h1 : selAttr (selScrollboxImg doc) "data-cfsrc" = none)
    (h2 : selAttr (selWallpaperById doc) "src" = none)
    (h3 : selAttr (selShowcase doc) "src" = none) :
    (extractPhase doc).2 = none ∧
    (extractPhase doc).1.head? = some "No image source found. Dumping img tags:" ∧
    ∀ i, (hi : i < (selImgs doc).length) →
      imgDumpLine i ((selImgs doc).get ⟨i, hi⟩) ∈ (extractPhase doc).1 := by
  have hx : extractImageSource doc = none := by
    simp [extractImageSource, h1, h2, h3]
  refine ⟨by simp [extractPhase, hx], by simp [extractPhase, hx], ?_⟩
  intro i hi
  simp only [extractPhase, hx]
  apply List.mem_cons_of_mem
  apply List.mem_map.mpr
  refine ⟨(i, (selImgs doc).get ⟨i, hi⟩), ?_, rfl⟩
  apply List.mk_mem_enum_iff_getElem?.mpr
  simp [List.getElem?_eq_getElem hi]

/-- C3, witness: a page with one stray image and no matching selector
produces the error together with the dump line for that image. -/
theorem extractPhase_dump_on_failure_witness :
    (extractPhase dumpDoc).2 = none ∧
    imgDumpLine 0 ((selImgs dumpDoc).get ⟨0, by decide⟩) ∈ (extractPhase dumpDoc).1 :=
  ⟨(extractPhase_dump_on_failure dumpDoc rfl rfl rfl).1,
   (extractPhase_dump_on_failure dumpDoc rfl rfl rfl).2.2 0 (by decide)⟩

/-- C4: in both external-tool branches (gsettings on Gnome, feh on
Dwm/I3), a run that exits successfully but leaves a non-empty stderr
makes setWallpaper return the corresponding stderr error. -/
theorem setWallpaper_stderr_error (w : SetWorld) (habs : w.absErr = none) :
    (detectWindowManager w.env = "gnome" → w.gsettings.runErr = none →
      w.gsettings.stderr ≠ "" →
      (setWallpaper w).ret = .error ("gsettings stderr: " ++ w.gsettings.stderr)) ∧
    ((detectWindowManager w.env = "dwm" ∨ detectWindowManager w.env = "i3") →
      w.fehLookPathErr = none → w.feh.runErr = none → w.feh.stderr ≠ "" →
      (setWallpaper w).ret = .error ("feh stderr: " ++ w.feh.stderr)) := by
  constructor
  · intro hwm hrun hstderr
    simp [setWallpaper, habs, hwm, hrun, hstderr]
  · rintro (hwm | hwm) hfeh hrun hstderr <;>
      simp [setWallpaper, habs, hwm, hfeh, hrun, hstderr]

/-- C4, witness: gsettings exits zero, stderr holds a warning, and the
call reports the stderr error. -/
theorem setWallpaper_stderr_error_witness :
    (setWallpaper gnomeStderrWorld).ret = .error "gsettings stderr: warning: schema" :=
  (setWallpaper_stderr_error gnomeStderrWorld rfl).1 rfl rfl (by decide)

/-- C5, counterexample: the file name is a pure function of the
millisecond timestamp and the identifier, so two downloads that fall
in the same millisecond with the same identifier produce the same
name — nothing in the code prevents the collision. -/
theorem mkWallpaperFileName_collision_cex :
    mkWallpaperFileName 17 "unknown" = "17-unknown.png" ∧
    mkWallpaperFileName 17 "unknown" = mkWallpaperFileName 17 "unknown" :=
  ⟨rfl, rfl⟩

/-- C5 (amended): two downloads whose millisecond timestamps differ
produce different file names, whatever the identifiers are; uniqueness
within a directory therefore holds whenever the clock advanced between
the downloads, which the code itself does not enforce. -/
theorem mkWallpaperFileName_injective (t1 t2 : Nat) (id1 id2 : String)
    (h : t1 ≠ t2) : mkWallpaperFileName t1 id1 ≠ mkWallpaperFileName t2 id2 := by
  intro he
  apply h
  apply toDigits_inj
  have hdata : ∀ t : Nat, (Nat.repr t).data = Nat.toDigits 10 t := fun _ => rfl
  have hdash : ("-" : String).data = ['-'] := rfl
  have hd := congrArg String.data he
  simp only [mkWallpaperFileName, string_data_append, hdash, List.append_assoc,
    List.singleton_append, hdata] at hd
  exact split_at_dash _ _ _ _ (toDigits_no_dash t1) (toDigits_no_dash t2) hd

/-- C5, witness: consecutive milliseconds give distinct names even for
the same identifier. -/
theorem mkWallpaperFileName_injective_witness :
    mkWallpaperFileName 17 "unknown" ≠ mkWallpaperFileName 18 "unknown" :=
  mkWallpaperFileName_injective 17 18 "unknown" "unknown" (by decide)

/-- C6: on a successful i3 run, the persistence step appends the exec
line exactly when the config file exists, is readable, and does not
already contain the feh invocation; and every read, open or write
failure only leaves a warning in the log while the call still returns
the log-flush result. -/
theorem setWallpaper_i3_persistence (w : SetWorld)
    (habs : w.absErr = none)
    (hwm : detectWindowManager w.env = "i3")
    (hfeh : w.fehLookPathErr = none)
    (hrun : w.feh.runErr = none)
    (hstderr : w.feh.stderr = "") :
    ((setWallpaper w).ret = w.flush) ∧
    (∀ c, w.i3ConfigExists = true → w.i3ConfigRead = .ok c →
      strContains c ("feh --bg-scale " ++ w.absPath) = false →
      w.i3OpenErr = none → w.i3WriteErr = none →
      (setWallpaper w).i3Append = some (fehLine w.absPath)) ∧
    (w.i3ConfigExists = false → (setWallpaper w).i3Append = none) ∧
    (∀ c, w.i3ConfigExists = true → w.i3ConfigRead = .ok c →
      strContains c ("feh --bg-scale " ++ w.absPath) = true →
      (setWallpaper w).i3Append = none) ∧
    (∀ e, w.i3ConfigExists = true → w.i3ConfigRead = .error e →
      ((setWallpaper w).ret = w.flush ∧
        ("Warning: could not read i3 config: " ++ e) ∈ (setWallpaper w).log)) ∧
    (∀ c e, w.i3ConfigExists = true → w.i3ConfigRead = .ok c →
      strContains c ("feh --bg-scale " ++ w.absPath) = false →
      w.i3OpenErr = some e →
      ((setWallpaper w).ret = w.flush ∧
        ("Warning: could not append to i3 config: " ++ e) ∈ (setWallpaper w).log)) ∧
    (∀ c e, w.i3ConfigExists = true → w.i3ConfigRead = .ok c →
      strContains c ("feh --bg-scale " ++ w.absPath) = false →
      w.i3OpenErr = none → w.i3WriteErr = some e →
      ((setWallpaper w).ret = w.flush ∧
        ("Warning: could not write to i3 config: " ++ e) ∈ (setWallpaper w).log)) := by
  refine ⟨?_, ?_, ?_, ?_, ?_, ?_, ?_⟩
  · simp [setWallpaper, habs, hwm, hfeh, hrun, hstderr]
  · intro c hex hread hcont hopen hwrite
    simp [setWallpaper, habs, hwm, hfeh, hrun, hstderr, i3Persist,
      hex, hread, hcont, hopen, hwrite]
  · intro hex
    simp [setWallpaper, habs, hwm, hfeh, hrun, hstderr, i3Persist, hex]
  · intro c hex hread hcont
    simp [setWallpaper, habs, hwm, hfeh, hrun, hstderr, i3Persist, hex, hread, hcont]
  · intro e hex hread
    simp [setWallpaper, habs, hwm, hfeh, hrun, hstderr, i3Persist, hex, hread]
  · intro c e hex hread hcont hopen
    simp [setWallpaper, habs, hwm, hfeh, hrun, hstderr, i3Persist,
      hex, hread, hcont, hopen]
  · intro c e hex hread hcont hopen hwrite
    simp [setWallpaper, habs, hwm, hfeh, hrun, hstderr, i3Persist,
      hex, hread, hcont, hopen, hwrite]

/-- C6, witness: a successful i3 run whose config exists and lacks the
invocation line gets the exec directive appended. -/
theorem setWallpaper_i3_persistence_witness :
    (setWallpaper i3World).i3Append =
      some (fehLine "/home/user/Pictures/17-abc.png") :=
  (setWallpaper_i3_persistence i3World rfl rfl rfl rfl rfl).2.1
    "set $mod Mod4" rfl rfl rfl rfl rfl

/-- C7, counterexample: the random listing-page fetch carries the
User-Agent header but no Accept header, so not every page fetch sends
both. -/
theorem randomPage_missing_accept_cex :
    (randomPageRequest.headers.map Prod.fst).contains "User-Agent" = true ∧
    (randomPageRequest.headers.map Prod.fst).contains "Accept" = false := by
  refine ⟨rfl, rfl⟩

/-- C7 (amended): both page fetches are GET requests carrying the
fixed browser-mimicking User-Agent; the detail-page fetch additionally
carries the fixed Accept header, while the random listing-page fetch
(and the image fetch) set only the User-Agent. -/
theorem pageFetch_headers (url imgUrl : String) :
    (detailPageRequest url).method = "GET" ∧
    ("User-Agent", userAgent) ∈ (detailPageRequest url).headers ∧
    ("Accept", acceptHeader) ∈ (detailPageRequest url).headers ∧
    randomPageRequest.method = "GET" ∧
    randomPageRequest.headers = [("User-Agent", userAgent)] ∧
    (imageRequest imgUrl).headers = [("User-Agent", userAgent)] := by
  refine ⟨rfl, ?_, ?_, rfl, rfl, rfl⟩
  · simp [detailPageRequest]
  · simp [detailPageRequest]

/-- C8: after a fully successful iteration the loop exits exactly when
the trimmed, lowercased user input equals y, and goes back to fetching
on every other input. -/
theorem sessionStep_exit_iff (src userInput : String) :
    (sessionStep (.ok src) (.ok ()) userInput = .exitLoop ↔
      lowerStr (trimStr userInput) = "y") ∧
    (lowerStr (trimStr userInput) ≠ "y" →
      sessionStep (.ok src) (.ok ()) userInput = .continueFetching) := by
  constructor
  · by_cases h : lowerStr (trimStr userInput) = "y" <;> simp [sessionStep, h]
  · intro h; simp [sessionStep, h]

/-- C8, witness: the input N (with surrounding spaces) does not exit;
the loop fetches the next wallpaper. -/
theorem sessionStep_exit_iff_witness :
    sessionStep (.ok "https://wallhaven.cc/w/abc") (.ok ()) " N " = .continueFetching :=
  (sessionStep_exit_iff "https://wallhaven.cc/w/abc" " N ").2 (by decide)

/-- C9: on the success path of every branch, setWallpaper returns the
log-flush result, so a failing flush makes the call fail and the
session loop retries with a new wallpaper. -/
theorem setWallpaper_returns_logFlush (w : SetWorld) (habs : w.absErr = none) :
    (detectWindowManager w.env = "gnome" → w.gsettings.runErr = none →
      w.gsettings.stderr = "" → (setWallpaper w).ret = w.flush) ∧
    (detectWindowManager w.env = "dwm" → w.fehLookPathErr = none →
      w.feh.runErr = none → w.feh.stderr = "" → (setWallpaper w).ret = w.flush) ∧
    (detectWindowManager w.env = "i3" → w.fehLookPathErr = none →
      w.feh.runErr = none → w.feh.stderr = "" → (setWallpaper w).ret = w.flush) ∧
    (∀ e src input, w.flush = .error e → (setWallpaper w).ret = w.flush →
      sessionStep (.ok src) (setWallpaper w).ret input = .continueFetching) := by
  refine ⟨?_, ?_, ?_, ?_⟩
  · intro hwm hrun hstderr
    simp [setWallpaper, habs, hwm, hrun, hstderr]
  · intro hwm hfeh hrun hstderr
    simp [setWallpaper, habs, hwm, hfeh, hrun, hstderr]
  · intro hwm hfeh hrun hstderr
    simp [setWallpaper, habs, hwm, hfeh, hrun, hstderr]
  · intro e src input hflush hret
    rw [hret, hflush]
    rfl

/-- C9, witness: the wallpaper is applied on Gnome but the log flush
fails, so the call returns the flush error and the loop retries even
though the user would have kept the image. -/
theorem setWallpaper_returns_logFlush_witness :
    (setWallpaper gnomeFlushFailWorld).ret =
      .error "failed to open log file: permission denied" ∧
    sessionStep (.ok "https://wallhaven.cc/w/abc")
      (setWallpaper gnomeFlushFailWorld).ret "y" = .continueFetching := by
  have h := setWallpaper_returns_logFlush gnomeFlushFailWorld rfl
  exact ⟨h.1 rfl rfl rfl,
    h.2.2.2 "failed to open log file: permission denied"
      "https://wallhaven.cc/w/abc" "y" rfl (h.1 rfl rfl rfl)⟩

/-- C10: downloadWallpaper creates the destination file before the
body copy, so a failing copy returns the save error while the created
file stays behind; and no operation anywhere in the program removes or
truncates a file. -/
theorem downloadWallpaper_leftover_file (e : String) :
    (copyPhase none (some e)).1 = true ∧
    (copyPhase none (some e)).2 = .error ("failed to save image: " ++ e) ∧
    FileOp.removeFile ∉ programFileOps ∧
    FileOp.truncateFile ∉ programFileOps := by
  refine ⟨rfl, rfl, by decide, by decide⟩

end Gohaven





